import Mathlib

/-!
Shallow embedding of the probabilistic-forecast API client (`PFXHandler` in
`probabilistic_forecast_api_guide.ipynb`): the `get_request` retrieval step and
the `parse_response` time-series reconstruction, together with theorems that
settle the specification's claims about them.

Modelling conventions:
* timestamps (`datetime` values) are integer seconds since the epoch, so
  `timedelta(hours=4)` is `4 * 3600` and `timedelta(minutes=i*60)` is
  `i * 60 * 60`;
* `datetime.fromisoformat` applied to the result of `dict.get` is modelled on
  `Option Timestamp`: a present, parseable ISO string is `some t` and a missing
  key is `none` (on which the real code raises `TypeError`);
* Python `round(x, 2)`, which rounds half to even, becomes `pyRound2` on `Rat`;
* exceptions become `Except` errors: the `assert` in `get_request` raises on a
  non-200 status, `max([])` raises `ValueError` when both output fields are
  absent, and `pd.DataFrame` raises `ValueError` on list columns of unequal
  length;
* an HTTP GET being issued is modelled by the returned `GetRequestEffect`
  carrying the exact URL; an `Except.error` result means no GET was issued.
-/

namespace PFX

/-- Timestamps as integer seconds since the epoch (UTC). -/
abbrev Timestamp := Int

/-- A per-interval quantile record (its contents are never inspected by the
client, only carried through; the payload values are abstracted as integers). -/
abbrev QuantileSet := List Int

/-- The fixed endpoint `PFXHandler.pfx_url`. -/
def pfx_url : String := "https://service.solaranywhere.com/api/v2/ProbabilisticForecast"

/-- The JSON body of the POST response, restricted to the single key
`get_request` reads: `post_json.get('ProbabilisticForecastRequestId', None)`. -/
structure PostBody where
  ProbabilisticForecastRequestId : Option String
deriving Repr, DecidableEq

/-- The POST response object as `get_request` observes it: its status code and
its parsed JSON body. -/
structure PostResponse where
  status_code : Nat
  body : PostBody
deriving Repr, DecidableEq

/-- Failure of `get_request`: the `assert post_response.status_code == 200`
raises when the submission was not successful.  This assertion failure is the
`InvalidSubmissionError` of the specification's error taxonomy; the payload is
the offending status code, matching the assert's message. -/
inductive GetErr where
  | invalidSubmission (status : Nat)
deriving Repr, DecidableEq

/-- The observable effect of a successful `get_request`: the GET that was
issued, identified by its URL (headers are the constant `create_headers()`). -/
structure GetRequestEffect where
  url : String
deriving Repr, DecidableEq

/-- Python f-string interpolation of an optional identifier:
`f"...{request_id}"` renders `None` as the literal text `"None"`. -/
def pyFormatOpt : Option String → String
  | some s => s
  | none => "None"

/-- Model of `PFXHandler.get_request(self, post_request_response)`.  The body reads the
module-level `post_response`, never its parameter: it asserts
`post_response.status_code == 200`, takes
`post_json.get('ProbabilisticForecastRequestId', None)`, builds
`f"{self.pfx_url}Result/{request_id}"` and issues the GET. -/
def get_request {α : Type} (post_response : PostResponse) (post_request_response : α) :
    Except GetErr GetRequestEffect :=
  if post_response.status_code = 200 then
    let post_json := post_response.body
    let request_id := post_json.ProbabilisticForecastRequestId
    let url := pfx_url ++ "Result/" ++ pyFormatOpt request_id
    .ok { url := url }
  else
    .error (.invalidSubmission post_response.status_code)

/-- The `Results` object of the GET response payload: an optional ordered
sequence of per-interval quantile records for each of GHI and POAI
(`res_json.get('Results').get('GHI', None)` and likewise for `'POAI'`). -/
structure ResultsJson where
  GHI : Option (List QuantileSet)
  POAI : Option (List QuantileSet)
deriving Repr, DecidableEq

/-- The GET response payload as `parse_response` observes it. -/
structure ResJson where
  Status : Option String
  StartTime : Option Timestamp
  TimeGenerated : Option Timestamp
  Results : ResultsJson
deriving Repr, DecidableEq

/-- Failure modes of `parse_response`, each standing for the concrete Python
exception raised at the corresponding site. -/
inductive ParseErr where
  /-- `datetime.fromisoformat(None)` raises `TypeError` when the key is
  missing from the payload. -/
  | fromIsoFormatNone
  /-- `max([])` raises `ValueError` when both GHI and POAI are absent; this is
  the `NoOutputFieldsError` of the specification's error taxonomy. -/
  | noOutputFields
  /-- `pd.DataFrame` raises `ValueError` when list-valued columns have unequal
  lengths. -/
  | lengthMismatch
deriving Repr, DecidableEq

/-- Model of `datetime.fromisoformat(res_json.get(key))`: parses a present field, raises
on a missing one. -/
def fromisoformat : Option Timestamp → Except ParseErr Timestamp
  | some t => .ok t
  | none => .error .fromIsoFormatNone

/-- Python's `round` on rationals: round half to even, to an integer. -/
def pyRound0 (q : Rat) : Int :=
  let n := q.floor
  let frac := q - n
  if frac < 1/2 then n
  else if 1/2 < frac then n + 1
  else if n % 2 = 0 then n else n + 1

/-- Python's `round(x, 2)`: round half to even at two decimal places. -/
def pyRound2 (q : Rat) : Rat := (pyRound0 (q * 100) : Rat) / 100

/-- One row of the output dataframe. -/
structure ForecastRow where
  issue_time : Timestamp
  interval_start : Timestamp
  interval_end : Timestamp
  lead_time_hours : Rat
  GHI : Option QuantileSet
  POAI : Option QuantileSet
deriving Repr, DecidableEq

/-- Model of `[len(i) for i in [GHI, POAI] if i is not None]`: the lengths of the
present output-field sequences, in payload order. -/
def presentLengths (GHI POAI : Option (List QuantileSet)) : List Nat :=
  ([GHI, POAI].filterMap id).map List.length

/-- The lengths of the list-valued columns handed to `pd.DataFrame`
(the scalar `issue_time` and a `None` field broadcast and impose no length). -/
def listColLengths (interval_starts interval_ends : List Timestamp)
    (lead_time_hours : List Rat) (GHI POAI : Option (List QuantileSet)) : List Nat :=
  [interval_starts.length, interval_ends.length, lead_time_hours.length]
    ++ (match GHI with | some l => [l.length] | none => [])
    ++ (match POAI with | some l => [l.length] | none => [])

/-- Model of `pd.DataFrame(forecast_dict)`: list-valued columns must all have the same
length, else pandas raises `ValueError`; the scalar `issue_time` is broadcast
to every row and a `None` output field becomes a null for every row. -/
def pdDataFrame (issue_time : Timestamp) (interval_starts interval_ends : List Timestamp)
    (lead_time_hours : List Rat) (GHI POAI : Option (List QuantileSet)) :
    Except ParseErr (List ForecastRow) :=
  if ∀ m ∈ listColLengths interval_starts interval_ends lead_time_hours GHI POAI,
      m = interval_starts.length then
    .ok ((List.range interval_starts.length).map (fun i =>
      { issue_time := issue_time
        interval_start := interval_starts.getD i 0
        interval_end := interval_ends.getD i 0
        lead_time_hours := lead_time_hours.getD i 0
        GHI := GHI.map (fun l => l.getD i [])
        POAI := POAI.map (fun l => l.getD i []) }))
  else
    .error .lengthMismatch

/-- Model of `PFXHandler.parse_response(self, res_json)`.  Returns `.ok none` for the
Pending-signal (the Python `return None`), `.ok (some rows)` for the assembled
dataframe, and `.error` for each raised exception; the nested matches mirror
Python's sequential statement-by-statement raising. -/
def parse_response (res_json : ResJson) : Except ParseErr (Option (List ForecastRow)) :=
  if res_json.Status = some "Pending" then
    .ok none
  else
    match fromisoformat res_json.StartTime with
    | .error e => .error e
    | .ok first_interval_start =>
      match fromisoformat res_json.TimeGenerated with
      | .error e => .error e
      | .ok api_call_time =>
        let forecast_issue_time := min (first_interval_start - 4 * 3600) api_call_time
        let GHI := res_json.Results.GHI
        let POAI := res_json.Results.POAI
        match (presentLengths GHI POAI).max? with
        | none => .error .noOutputFields
        | some num_forecasts =>
          let interval_starts := (List.range num_forecasts).map
            (fun (i : Nat) => first_interval_start + (i : Int) * 60 * 60)
          let interval_ends := interval_starts.map
            (fun interval_start => interval_start + 60 * 60)
          let lead_time_hours := interval_starts.map
            (fun int_start => pyRound2 (((int_start - forecast_issue_time : Int) : Rat) / 3600))
          (pdDataFrame forecast_issue_time interval_starts interval_ends lead_time_hours
            GHI POAI).map some

/-- Value of `max([len(i) for i in [GHI, POAI] if i is not None])` for a payload, as an
optional value (`none` when the real code would raise `ValueError`). -/
def num_forecasts? (res_json : ResJson) : Option Nat :=
  (presentLengths res_json.Results.GHI res_json.Results.POAI).max?

/-- The rows of a successful reconstruction (and `[]` on Pending or error);
used to name the concrete tables of the witnesses below. -/
def rowsOf : Except ParseErr (Option (List ForecastRow)) → List ForecastRow
  | .ok (some rows) => rows
  | _ => []

/-- The specification's round-trip payload: `StartTime` 2024-02-14T09:00Z and
`TimeGenerated` 2024-02-14T02:00Z, rendered as seconds from that day's
midnight (09:00 = 32400, 02:00 = 7200), with a GHI sequence of length 3 and no
POAI.  Here the API call happened before `StartTime − 4h`, so `TimeGenerated`
wins the `min`. -/
def res_w : ResJson :=
  { Status := some "Done", StartTime := some 32400, TimeGenerated := some 7200,
    Results := { GHI := some [[10, 50, 90], [20, 60, 95], [30, 70, 99]], POAI := none } }

/-- The table reconstructed from `res_w`. -/
def rows_w : List ForecastRow := rowsOf (parse_response res_w)

/-- A payload on the other `min` branch: `TimeGenerated` 06:00 (= 21600) is
later than `StartTime − 4h` = 05:00 (= 18000), so `StartTime − 4h` wins. -/
def res_w2 : ResJson :=
  { Status := some "Done", StartTime := some 32400, TimeGenerated := some 21600,
    Results := { GHI := none, POAI := some [[1, 2], [3, 4]] } }

/-- The table reconstructed from `res_w2`. -/
def rows_w2 : List ForecastRow := rowsOf (parse_response res_w2)

/-- A non-Pending payload whose `Results` holds neither GHI nor POAI. -/
def res_empty : ResJson :=
  { Status := some "Done", StartTime := some 32400, TimeGenerated := some 7200,
    Results := { GHI := none, POAI := none } }

/-- A non-Pending payload with GHI and POAI sequences of different lengths. -/
def res_mm : ResJson :=
  { Status := some "Done", StartTime := some 32400, TimeGenerated := some 7200,
    Results := { GHI := some [[1], [2]], POAI := some [[3]] } }

/-- A Pending payload whose remaining contents would raise on every later
step (missing timestamps, mismatched result lengths) were they ever reached. -/
def res_pend : ResJson :=
  { Status := some "Pending", StartTime := none, TimeGenerated := none,
    Results := { GHI := some [[1], [2]], POAI := some [[3]] } }

/-- A successful submission response carrying a job identifier. -/
def post_response_ok : PostResponse :=
  { status_code := 200, body := { ProbabilisticForecastRequestId := some "abc123" } }

/-- A failed submission response (HTTP 404). -/
def post_response_bad : PostResponse :=
  { status_code := 404, body := { ProbabilisticForecastRequestId := some "abc123" } }

/-- A successful submission response whose body lacks
`ProbabilisticForecastRequestId`. -/
def post_response_missing_id : PostResponse :=
  { status_code := 200, body := { ProbabilisticForecastRequestId := none } }

lemma getD_map_range {β : Type} (f : Nat → β) {n i : Nat} (h : i < n) (d : β) :
    ((List.range n).map f).getD i d = f i := by
  rw [List.getD_eq_getElem?_getD, List.getElem?_map, List.getElem?_range h]
  rfl

lemma parse_response_pending_eq (res : ResJson) (hpending : res.Status = some "Pending") :
    parse_response res = .ok none := by
  unfold parse_response
  rw [if_pos hpending]

lemma pdDataFrame_ok_inv {issue : Timestamp} {starts ends_ : List Timestamp}
    {leads : List Rat} {G P : Option (List QuantileSet)} {rows : List ForecastRow}
    (h : pdDataFrame issue starts ends_ leads G P = .ok rows) :
    (∀ m ∈ listColLengths starts ends_ leads G P, m = starts.length) ∧
    rows = (List.range starts.length).map (fun i =>
      { issue_time := issue
        interval_start := starts.getD i 0
        interval_end := ends_.getD i 0
        lead_time_hours := leads.getD i 0
        GHI := G.map (fun l => l.getD i [])
        POAI := P.map (fun l => l.getD i []) }) := by
  unfold pdDataFrame at h
  by_cases hc : ∀ m ∈ listColLengths starts ends_ leads G P, m = starts.length
  · rw [if_pos hc] at h
    injection h with h
    exact ⟨hc, h.symm⟩
  · rw [if_neg hc] at h
    cases h

lemma parse_response_table_inv (res : ResJson) (rows : List ForecastRow)
    (hok : parse_response res = .ok (some rows)) :
    ∃ st tg num, res.StartTime = some st ∧ res.TimeGenerated = some tg ∧
      (presentLengths res.Results.GHI res.Results.POAI).max? = some num ∧
      rows = (List.range num).map (fun (i : Nat) =>
        { issue_time := min (st - 4 * 3600) tg
          interval_start := st + (i : Int) * 60 * 60
          interval_end := st + (i : Int) * 60 * 60 + 60 * 60
          lead_time_hours := pyRound2
            (((st + (i : Int) * 60 * 60 - min (st - 4 * 3600) tg : Int) : Rat) / 3600)
          GHI := res.Results.GHI.map (fun l => l.getD i [])
          POAI := res.Results.POAI.map (fun l => l.getD i []) }) := by
  by_cases hstat : res.Status = some "Pending"
  · rw [parse_response_pending_eq res hstat] at hok
    exact absurd hok (by simp)
  unfold parse_response at hok
  rw [if_neg hstat] at hok
  cases hStart : res.StartTime with
  | none => rw [hStart] at hok; simp [fromisoformat] at hok
  | some st =>
  rw [hStart] at hok
  simp only [fromisoformat] at hok
  cases hTg : res.TimeGenerated with
  | none => rw [hTg] at hok; simp [fromisoformat] at hok
  | some tg =>
  rw [hTg] at hok
  simp only [fromisoformat] at hok
  cases hmax : (presentLengths res.Results.GHI res.Results.POAI).max? with
  | none => rw [hmax] at hok; cases hok
  | some num =>
  rw [hmax] at hok
  dsimp only at hok
  refine ⟨st, tg, num, rfl, rfl, rfl, ?_⟩
  set starts : List Timestamp :=
    (List.range num).map (fun (i : Nat) => st + (i : Int) * 60 * 60) with hstarts
  have hdf : pdDataFrame (min (st - 4 * 3600) tg) starts
      (starts.map (fun interval_start => interval_start + 60 * 60))
      (starts.map (fun int_start =>
        pyRound2 (((int_start - min (st - 4 * 3600) tg : Int) : Rat) / 3600)))
      res.Results.GHI res.Results.POAI = .ok rows := by
    cases hdf0 : pdDataFrame (min (st - 4 * 3600) tg) starts
        (starts.map (fun interval_start => interval_start + 60 * 60))
        (starts.map (fun int_start =>
          pyRound2 (((int_start - min (st - 4 * 3600) tg : Int) : Rat) / 3600)))
        res.Results.GHI res.Results.POAI with
    | ok r =>
      rw [hdf0] at hok
      simp only [Except.map] at hok
      injection hok with hok
      injection hok with hok
      rw [hok]
    | error e =>
      rw [hdf0] at hok
      simp [Except.map] at hok
  obtain ⟨hcond, hrows⟩ := pdDataFrame_ok_inv hdf
  have hslen : starts.length = num := by simp [hstarts]
  rw [hrows, hslen]
  apply List.map_congr_left
  intro i hi
  have hi' : i < num := List.mem_range.mp hi
  have h1 : starts.getD i 0 = st + (i : Int) * 60 * 60 := by
    rw [hstarts, getD_map_range _ hi']
  have h2 : (starts.map (fun interval_start => interval_start + 60 * 60)).getD i 0
      = st + (i : Int) * 60 * 60 + 60 * 60 := by
    rw [hstarts, List.map_map, getD_map_range _ hi']
    rfl
  have h3 : (starts.map (fun int_start =>
      pyRound2 (((int_start - min (st - 4 * 3600) tg : Int) : Rat) / 3600))).getD i 0
      = pyRound2 (((st + (i : Int) * 60 * 60 - min (st - 4 * 3600) tg : Int) : Rat) / 3600) := by
    rw [hstarts, List.map_map, getD_map_range _ hi']
    rfl
  rw [h1, h2, h3]

lemma parse_response_not_pending_eq (res : ResJson) (st tg : Timestamp)
    (hstatus : ¬ res.Status = some "Pending")
    (hst : res.StartTime = some st) (htg : res.TimeGenerated = some tg) :
    parse_response res =
      match (presentLengths res.Results.GHI res.Results.POAI).max? with
      | none => .error .noOutputFields
      | some num_forecasts =>
        (pdDataFrame (min (st - 4 * 3600) tg)
          ((List.range num_forecasts).map (fun (i : Nat) => st + (i : Int) * 60 * 60))
          (((List.range num_forecasts).map (fun (i : Nat) => st + (i : Int) * 60 * 60)).map
            (fun interval_start => interval_start + 60 * 60))
          (((List.range num_forecasts).map (fun (i : Nat) => st + (i : Int) * 60 * 60)).map
            (fun int_start =>
              pyRound2 (((int_start - min (st - 4 * 3600) tg : Int) : Rat) / 3600)))
          res.Results.GHI res.Results.POAI).map some := by
  unfold parse_response
  rw [if_neg hstatus, hst, htg]
  rfl

lemma pdDataFrame_both_mismatch (issue : Timestamp) (starts ends_ : List Timestamp)
    (leads : List Rat) (g p : List QuantileSet) (hne : g.length ≠ p.length) :
    pdDataFrame issue starts ends_ leads (some g) (some p) = .error .lengthMismatch := by
  unfold pdDataFrame
  rw [if_neg]
  intro hall
  have h1 := hall g.length (by simp [listColLengths])
  have h2 := hall p.length (by simp [listColLengths])
  exact hne (h1.trans h2.symm)

/-- C6: for every payload whose `Status` is `"Pending"`, `parse_response`
returns the Pending-signal (the Python `return None`, here `.ok none`):
no table and no exception, regardless of the other payload contents. -/
theorem parse_response_pending_signal (res : ResJson)
    (hpending : res.Status = some "Pending") :
    parse_response res = .ok none :=
  parse_response_pending_eq res hpending

/-- C6 witness: the concrete Pending payload `res_pend`, whose other contents
(missing timestamps, mismatched result lengths) would raise on any later step,
still yields the non-error Pending-signal. -/
theorem parse_response_pending_signal_witness :
    parse_response res_pend = .ok none :=
  parse_response_pending_signal res_pend rfl

/-- C7: for every non-Pending payload with parseable `StartTime` and
`TimeGenerated` in which both GHI and POAI are absent from `Results`,
`parse_response` fails with the no-output-fields error (the `ValueError`
raised by `max([])`) instead of returning a table. -/
theorem parse_response_no_output_fields_error (res : ResJson) (st tg : Timestamp)
    (hstatus : ¬ res.Status = some "Pending")
    (hst : res.StartTime = some st) (htg : res.TimeGenerated = some tg)
    (hghi : res.Results.GHI = none) (hpoai : res.Results.POAI = none) :
    parse_response res = .error .noOutputFields := by
  rw [parse_response_not_pending_eq res st tg hstatus hst htg, hghi, hpoai]
  rfl

/-- C7 witness: the concrete both-fields-absent payload `res_empty`. -/
theorem parse_response_no_output_fields_error_witness :
    parse_response res_empty = .error .noOutputFields :=
  parse_response_no_output_fields_error res_empty 32400 7200 (by decide) rfl rfl rfl rfl

/-- C10: for every non-Pending payload in which both GHI and POAI are present
but of unequal lengths, `parse_response` fails with the dataframe
length-mismatch error (pandas rejects columns of mismatched length) rather
than padding the shorter field or returning a table. -/
theorem parse_response_mismatched_lengths_error (res : ResJson) (st tg : Timestamp)
    (g p : List QuantileSet) (hstatus : ¬ res.Status = some "Pending")
    (hst : res.StartTime = some st) (htg : res.TimeGenerated = some tg)
    (hghi : res.Results.GHI = some g) (hpoai : res.Results.POAI = some p)
    (hne : g.length ≠ p.length) :
    parse_response res = .error .lengthMismatch := by
  rw [parse_response_not_pending_eq res st tg hstatus hst htg, hghi, hpoai]
  have hmax : (presentLengths (some g) (some p)).max? = some (max g.length p.length) := rfl
  rw [hmax]
  dsimp only
  rw [pdDataFrame_both_mismatch _ _ _ _ g p hne]
  rfl

/-- C10 witness: the concrete payload `res_mm` with GHI of length 2 and POAI
of length 1. -/
theorem parse_response_mismatched_lengths_error_witness :
    parse_response res_mm = .error .lengthMismatch :=
  parse_response_mismatched_lengths_error res_mm 32400 7200 [[1], [2]] [[3]]
    (by decide) rfl rfl rfl rfl (by decide)

/-- C2: for every non-Pending payload with parseable `StartTime` and
`TimeGenerated` that yields a table, every row's issue time is
`min(StartTime − 4 hours, TimeGenerated)`. -/
theorem parse_response_issue_time_min (res : ResJson) (st tg : Timestamp)
    (rows : List ForecastRow)
    (hst : res.StartTime = some st) (htg : res.TimeGenerated = some tg)
    (hok : parse_response res = .ok (some rows)) :
    ∀ row ∈ rows, row.issue_time = min (st - 4 * 3600) tg := by
  obtain ⟨st', tg', num, hst', htg', hmax, hrows⟩ := parse_response_table_inv res rows hok
  rw [hst] at hst'
  injection hst' with hst'
  rw [htg] at htg'
  injection htg' with htg'
  subst hst' htg'
  intro row hrow
  rw [hrows] at hrow
  obtain ⟨i, hi, rfl⟩ := List.mem_map.mp hrow
  rfl

/-- C2 witness: both branches of the `min`.  In `res_w` the API call time
(02:00) precedes `StartTime − 4h` (05:00), so `TimeGenerated` wins; in
`res_w2` the call time (06:00) is later, so `StartTime − 4h` wins. -/
theorem parse_response_issue_time_min_witness :
    (∀ row ∈ rows_w, row.issue_time = min ((32400 : Int) - 4 * 3600) 7200) ∧
    (∀ row ∈ rows_w2, row.issue_time = min ((32400 : Int) - 4 * 3600) 21600) :=
  ⟨parse_response_issue_time_min res_w 32400 7200 rows_w rfl rfl rfl,
   parse_response_issue_time_min res_w2 32400 21600 rows_w2 rfl rfl rfl⟩

/-- C3: every produced table has exactly `num_forecasts` rows (the source's
`max` over present output fields), row `i` starts at `StartTime + i` hours and
ends one hour later, and consecutive intervals are contiguous (each row's
start is the previous row's end), hence ascending. -/
theorem parse_response_intervals_contiguous (res : ResJson) (st : Timestamp)
    (rows : List ForecastRow) (hst : res.StartTime = some st)
    (hok : parse_response res = .ok (some rows)) :
    num_forecasts? res = some rows.length ∧
    (∀ (i : Nat) (h : i < rows.length),
      rows[i].interval_start = st + (i : Int) * 3600 ∧
      rows[i].interval_end = rows[i].interval_start + 3600) ∧
    (∀ (i : Nat) (h : i + 1 < rows.length),
      rows[i + 1].interval_start = rows[i].interval_end) := by
  obtain ⟨st', tg, num, hst', htg, hmax, hrows⟩ := parse_response_table_inv res rows hok
  rw [hst] at hst'
  injection hst' with hst'
  subst hst'
  subst hrows
  refine ⟨?_, ?_, ?_⟩
  · simpa [num_forecasts?] using hmax
  · intro i h
    have hi : i < num := by simpa using h
    constructor
    · simp only [List.getElem_map, List.getElem_range]
      ring
    · simp only [List.getElem_map, List.getElem_range]
      ring
  · intro i h
    have hi : i + 1 < num := by simpa using h
    simp only [List.getElem_map, List.getElem_range]
    push_cast
    ring

/-- C3 witness: the three-row table of `res_w`. -/
theorem parse_response_intervals_contiguous_witness :
    num_forecasts? res_w = some rows_w.length ∧
    (∀ (i : Nat) (h : i < rows_w.length),
      rows_w[i].interval_start = (32400 : Int) + (i : Int) * 3600 ∧
      rows_w[i].interval_end = rows_w[i].interval_start + 3600) ∧
    (∀ (i : Nat) (h : i + 1 < rows_w.length),
      rows_w[i + 1].interval_start = rows_w[i].interval_end) :=
  parse_response_intervals_contiguous res_w 32400 rows_w rfl rfl

/-- C4: the number of rows of every produced table is
`max([len(i) for i in [GHI, POAI] if i is not None])`, and an absent output
field is carried as null (`none`) in every row. -/
theorem parse_response_num_intervals_nulls (res : ResJson) (rows : List ForecastRow)
    (hok : parse_response res = .ok (some rows)) :
    (presentLengths res.Results.GHI res.Results.POAI).max? = some rows.length ∧
    (res.Results.GHI = none → ∀ row ∈ rows, row.GHI = none) ∧
    (res.Results.POAI = none → ∀ row ∈ rows, row.POAI = none) := by
  obtain ⟨st, tg, num, hst, htg, hmax, hrows⟩ := parse_response_table_inv res rows hok
  subst hrows
  refine ⟨by simpa using hmax, ?_, ?_⟩
  · intro hg row hrow
    obtain ⟨i, hi, rfl⟩ := List.mem_map.mp hrow
    simp [hg]
  · intro hp row hrow
    obtain ⟨i, hi, rfl⟩ := List.mem_map.mp hrow
    simp [hp]

/-- C4 witness: `res_w` requests only GHI (length 3); its POAI column is null
in every row and the row count is the GHI length. -/
theorem parse_response_num_intervals_nulls_witness :
    (presentLengths res_w.Results.GHI res_w.Results.POAI).max? = some rows_w.length ∧
    (res_w.Results.GHI = none → ∀ row ∈ rows_w, row.GHI = none) ∧
    (res_w.Results.POAI = none → ∀ row ∈ rows_w, row.POAI = none) :=
  parse_response_num_intervals_nulls res_w rows_w rfl

/-- C5: in every produced table, row `i`'s lead time equals the difference
`interval_start − issue_time` expressed in hours and rounded at two decimal
places (`pyRound2`, Python's `round(x, 2)`), and is therefore an integer
multiple of 1/100. -/
theorem parse_response_lead_time_round2 (res : ResJson) (rows : List ForecastRow)
    (hok : parse_response res = .ok (some rows)) (i : Nat) (h : i < rows.length) :
    rows[i].lead_time_hours =
      pyRound2 (((rows[i].interval_start - rows[i].issue_time : Int) : Rat) / 3600) ∧
    ∃ k : Int, rows[i].lead_time_hours = (k : Rat) / 100 := by
  obtain ⟨st, tg, num, hst, htg, hmax, hrows⟩ := parse_response_table_inv res rows hok
  subst hrows
  have hi : i < num := by simpa using h
  constructor
  · simp only [List.getElem_map, List.getElem_range]
  · refine ⟨pyRound0 ((((st + (i : Int) * 60 * 60 - min (st - 4 * 3600) tg : Int) : Rat)
      / 3600) * 100), ?_⟩
    simp only [List.getElem_map, List.getElem_range, pyRound2]

/-- C5 witness: the first row of `res_w`'s table. -/
theorem parse_response_lead_time_round2_witness :
    (rows_w.get ⟨0, by decide⟩).lead_time_hours =
      pyRound2 ((((rows_w.get ⟨0, by decide⟩).interval_start
        - (rows_w.get ⟨0, by decide⟩).issue_time : Int) : Rat) / 3600) ∧
    ∃ k : Int, (rows_w.get ⟨0, by decide⟩).lead_time_hours = (k : Rat) / 100 :=
  parse_response_lead_time_round2 res_w rows_w rfl 0 (by decide)

/-- C8: `get_request` on a submission whose status code is not 200 fails with
the invalid-submission assertion before issuing any GET (an `.error` result
carries no `GetRequestEffect`); on a status-200 submission the check passes
and the GET to the identifier-derived URL is issued. -/
theorem get_request_status_gate {α : Type} (post_response : PostResponse) (a : α) :
    (¬ post_response.status_code = 200 →
      get_request post_response a = .error (.invalidSubmission post_response.status_code)) ∧
    (post_response.status_code = 200 →
      get_request post_response a = .ok { url := (pfx_url ++ "Result/"
        ++ pyFormatOpt post_response.body.ProbabilisticForecastRequestId) }) := by
  constructor
  · intro h
    unfold get_request
    rw [if_neg h]
  · intro h
    unfold get_request
    rw [if_pos h]

/-- C8 witness: a 404 submission raises and no GET effect exists; a 200
submission issues the GET. -/
theorem get_request_status_gate_witness :
    get_request post_response_bad (0 : Nat) = .error (.invalidSubmission 404) ∧
    get_request post_response_ok (0 : Nat) =
      .ok { url := pfx_url ++ "Result/" ++ pyFormatOpt (some "abc123") } :=
  ⟨(get_request_status_gate post_response_bad 0).1 (by decide),
   (get_request_status_gate post_response_ok 0).2 rfl⟩

/-- C9: the result of `get_request` is independent of its parameter
`post_request_response`: for any two distinct argument values under the same
module-level `post_response`, the status check, the extracted identifier and
the issued GET are identical, because the body reads `post_response`, never
the parameter. -/
theorem get_request_independent_of_parameter {α : Type} (post_response : PostResponse)
    (a b : α) (hab : a ≠ b) :
    get_request post_response a = get_request post_response b := rfl

/-- C9 witness: two distinct concrete parameters give the same result. -/
theorem get_request_independent_of_parameter_witness :
    get_request post_response_ok (0 : Nat) = get_request post_response_ok 1 :=
  get_request_independent_of_parameter post_response_ok 0 1 (by decide)

/-- C1 counterexample: on a 200 submission whose body lacks
`ProbabilisticForecastRequestId`, `get_request` does not fail at all — it
issues a GET whose URL embeds the placeholder text `None`
(`request_id = post_json.get(..., None)` followed by f-string interpolation).
The claimed `MissingIdentifierError` does not exist in the code. -/
theorem get_request_missing_id_counterexample :
    get_request post_response_missing_id (0 : Nat) =
      .ok { url := "https://service.solaranywhere.com/api/v2/ProbabilisticForecastResult/None" } :=
  rfl

/-- C1 amended: for every 200 submission whose JSON body lacks
`ProbabilisticForecastRequestId`, `get_request` succeeds and issues a GET to
`pfx_url ++ "Result/None"`, the placeholder identifier `None` interpolated
into the URL. -/
theorem get_request_missing_id_placeholder {α : Type} (post_response : PostResponse) (a : α)
    (h200 : post_response.status_code = 200)
    (hmiss : post_response.body.ProbabilisticForecastRequestId = none) :
    get_request post_response a = .ok { url := pfx_url ++ "Result/None" } := by
  unfold get_request
  rw [if_pos h200]
  show (Except.ok { url := (pfx_url ++ "Result/"
      ++ pyFormatOpt post_response.body.ProbabilisticForecastRequestId) }
    : Except GetErr GetRequestEffect) = _
  rw [hmiss]
  rfl

/-- C1 amended witness: the concrete identifier-less 200 submission. -/
theorem get_request_missing_id_placeholder_witness :
    get_request post_response_missing_id (0 : Nat) =
      .ok { url := pfx_url ++ "Result/None" } :=
  get_request_missing_id_placeholder post_response_missing_id 0 rfl rfl

end PFX
